import Mathlib

/-!
Verification of the BondKeeper2 service worker (`src/static/service-worker.js`).

The worker is a browser background agent with five event handlers:
`install`, `activate`, `fetch`, `push` and `notificationclick`.  We give a
shallow embedding of each handler as a pure Lean function:

* the single named cache bucket is an association list from URL strings to
  responses (`Cache`); `cacheMatch` models `caches.match` restricted to that
  bucket and `cachePut` models `Cache.put`, which replaces any existing entry
  stored under the same URL;
* the network is a function `net : String → Response` giving the response a
  `fetch(request)` for that URL returns;
* `Cache.addAll(ASSETS)` in the install handler is modelled as fetching each
  asset in order and storing it with `cachePut`;
* push payloads are JSON values; `e.data.json()` either throws (modelled by
  `none`) or yields an object whose relevant fields `title`, `body`, `url`
  are optional JSON values (`PushPayload`); JavaScript truthiness of those
  values is `JVal.truthy` and `a || b` on them is `jsOr`;
* the window clients returned by `clients.matchAll({type:"window"})` are a
  list of `Client`s, each carrying its URL and whether a `focus` member is
  present (the handler tests `"focus" in c`).
-/

namespace BondKeeper

/-- Cache bucket name constant from `service-worker.js` line 1. -/
def CACHE : String := "bailsaas-v1"

/-- Preloaded asset list from `service-worker.js` lines 2–5. -/
def ASSETS : List String := ["/", "/static/manifest.webmanifest"]

/-- An HTTP response, with its status code and body.  (`res.clone()` in the
source produces a second response with the same content; the model stores the
value itself.) -/
structure Response where
  status : Nat
  body : String
deriving DecidableEq

/-- An HTTP request: a method and a URL. -/
structure Request where
  method : String
  url : String
deriving DecidableEq

/-- The single named cache bucket: request→response pairs keyed by URL. -/
abbrev Cache := List (String × Response)

/-- Model of `caches.match(request)`: the response stored under the request's
URL, if any. -/
def cacheMatch (c : Cache) (url : String) : Option Response :=
  (c.find? (fun p => p.1 == url)).map Prod.snd

/-- Model of `cache.put(request, response)`: store the response under the
URL, replacing any entry already stored under that URL. -/
def cachePut (c : Cache) (url : String) (r : Response) : Cache :=
  (url, r) :: c.filter (fun p => p.1 != url)

/-- Model of the `install` handler (lines 7–10): open the bucket and
`addAll(ASSETS)`, i.e. fetch each asset and store the response.
(`skipWaiting` does not touch the cache.) -/
def handleInstall (net : String → Response) (c : Cache) : Cache :=
  ASSETS.foldl (fun acc u => cachePut acc u (net u)) c

/-- Model of the `activate` handler (lines 12–14): `clients.claim()` performs
no cache operation, so the bucket is unchanged. -/
def handleActivate (c : Cache) : Cache := c

/-- Outcome of one run of the `fetch` handler: whether `respondWith` was
issued, the response handed to the page (if intercepted), whether a network
`fetch(request)` was performed, and the cache bucket afterwards. -/
structure FetchResult where
  intercepted : Bool
  response : Option Response
  networkFetched : Bool
  cache : Cache
deriving DecidableEq

/-- Model of the `fetch` handler (lines 16–28).  Non-GET requests return
early with no `respondWith`.  Otherwise the handler responds with the cached
response when `caches.match` finds one, and else fetches from the network,
stores a clone under the request and returns the response. -/
def handleFetch (net : String → Response) (cache : Cache) (req : Request) :
    FetchResult :=
  if req.method != "GET" then
    { intercepted := false, response := none, networkFetched := false,
      cache := cache }
  else
    match cacheMatch cache req.url with
    | some cached =>
      { intercepted := true, response := some cached, networkFetched := false,
        cache := cache }
    | none =>
      let res := net req.url
      { intercepted := true, response := some res, networkFetched := true,
        cache := cachePut cache req.url res }

/-- A JSON value, as delivered by `e.data.json()`.  Only the shapes the
handler can observe matter: null, booleans, numbers and strings.  (Objects or
arrays nested inside a field would be truthy; a number models them no worse
than needed for truthiness, and the handler never looks inside a field.) -/
inductive JVal where
  | jnull : JVal
  | jbool : Bool → JVal
  | jnum : Int → JVal
  | jstr : String → JVal
deriving DecidableEq

/-- JavaScript truthiness of a JSON value: `null`, `false`, `0` and `""` are
falsy, everything else is truthy. -/
def JVal.truthy : JVal → Bool
  | .jnull => false
  | .jbool b => b
  | .jnum n => n != 0
  | .jstr s => s != ""

/-- The fields of a parsed push payload object that the handler reads:
`data.title`, `data.body`, `data.url`.  `none` is an absent field
(`undefined`). -/
structure PushPayload where
  title : Option JVal
  body : Option JVal
  url : Option JVal
deriving DecidableEq

/-- JavaScript `v || d` for an optional field `v` against a default `d`:
the field's value when present and truthy, otherwise the default. -/
def jsOr (v : Option JVal) (d : JVal) : JVal :=
  match v with
  | some w => if w.truthy then w else d
  | none => d

/-- Truthiness of an optional field: an absent field (`undefined`) is falsy.
`jsOr` yields the default exactly when this is `true`. -/
def jsFalsy (v : Option JVal) : Bool :=
  match v with
  | some w => !w.truthy
  | none => true

/-- A notification as passed to `registration.showNotification`: the title
argument, and the `body`, `data.url` (the click target), `icon` and `badge`
options. -/
structure ShownNotification where
  title : JVal
  body : JVal
  url : JVal
  icon : String
  badge : String
deriving DecidableEq

/-- The notification built by the `push` handler (lines 31–42) from the
parsed payload; `none` is the case where `e.data.json()` threw, leaving
`data = {}`, whose every field is absent. -/
def buildShown (parsed : Option PushPayload) : ShownNotification :=
  let data := parsed.getD ⟨none, none, none⟩
  { title := jsOr data.title (.jstr "BailSaaS")
    body := jsOr data.body (.jstr "")
    url := jsOr data.url (.jstr "/")
    icon := "/static/icons/icon-192.png"
    badge := "/static/icons/icon-192.png" }

/-- Model of the `push` handler: the list of notifications it shows.  The
handler calls `showNotification` exactly once, on the notification built from
the payload, whether or not the payload parsed. -/
def handlePush (parsed : Option PushPayload) : List ShownNotification :=
  [buildShown parsed]

/-- The `push` handler performs no cache operation, so the bucket is
unchanged by a push event. -/
def handlePushCache (c : Cache) : Cache := c

/-- A window client as returned by `clients.matchAll({type:"window"})`: its
URL and whether a `focus` member is present (`"focus" in c`). -/
structure Client where
  url : String
  canFocus : Bool
deriving DecidableEq

/-- What the `notificationclick` handler does after closing the
notification: focus an existing window client, or open a new window at a
URL. -/
inductive ClickAction where
  | focusClient : Client → ClickAction
  | openWindow : String → ClickAction
deriving DecidableEq

/-- The click target `e.notification.data?.url || "/"`: the stored URL when
present and truthy, else `"/"`. -/
def clickTarget (dataUrl : Option String) : String :=
  match dataUrl with
  | some s => if s != "" then s else "/"
  | none => "/"

/-- Outcome of one run of the `notificationclick` handler: the notification
is closed, and one action is taken. -/
structure ClickResult where
  closed : Bool
  action : ClickAction
deriving DecidableEq

/-- Model of the `notificationclick` handler (lines 44–51): close the
notification; focus the first listed window client whose URL equals the
target and which has a `focus` member, or open a new window at the target
when no such client exists. -/
def handleClick (dataUrl : Option String) (list : List Client) : ClickResult :=
  let url := clickTarget dataUrl
  { closed := true
    action :=
      match list.find? (fun c => c.url == url && c.canFocus) with
      | some c => .focusClient c
      | none => .openWindow url }

/-- The `notificationclick` handler performs no cache operation, so the
bucket is unchanged by a notification click. -/
def handleClickCache (c : Cache) : Cache := c

/-! ### Helper lemmas about the cache bucket -/

/-- Entries stored under a different URL do not affect a lookup: filtering
out the entries under `v` leaves a lookup for `u ≠ v` unchanged. -/
theorem find?_filter_ne (c : Cache) (u v : String) (h : u ≠ v) :
    (c.filter (fun p => p.1 != v)).find? (fun p => p.1 == u)
      = c.find? (fun p => p.1 == u) := by
  induction c with
  | nil => rfl
  | cons a c ih =>
    by_cases ha : a.1 = u
    · have hv : (a.1 != v) = true := by simp [ha, h]
      simp [List.filter_cons, hv, List.find?_cons, ha, h]
    · by_cases hav : a.1 = v
      · have hvu : (v == u) = false := by simp [Ne.symm h]
        simp [List.filter_cons, hav, List.find?_cons, ha, ih, hvu]
      · simp [List.filter_cons, hav, List.find?_cons, ha, ih]

/-- Lookup after a `put`: the stored response under the written URL, and the
previous result elsewhere. -/
theorem cacheMatch_cachePut (c : Cache) (v u : String) (r : Response) :
    cacheMatch (cachePut c v r) u = if u = v then some r else cacheMatch c u := by
  unfold cacheMatch cachePut
  by_cases h : u = v
  · subst h
    simp [List.find?_cons]
  · rw [if_neg h]
    have hvu : (v == u) = false := by
      simp [Ne.symm h]
    simp [List.find?_cons, hvu, find?_filter_ne c u v h]

/-- A URL with a cache entry keeps an entry through any sequence of asset
stores. -/
theorem cacheMatch_isSome_foldl (net : String → Response) (l : List String)
    (c : Cache) (u : String) (h : (cacheMatch c u).isSome = true) :
    (cacheMatch (l.foldl (fun acc a => cachePut acc a (net a)) c) u).isSome
      = true := by
  induction l generalizing c with
  | nil => exact h
  | cons a l ih =>
    refine ih (cachePut c a (net a)) ?_
    rw [cacheMatch_cachePut]
    split
    · rfl
    · exact h

/-! ### Claim theorems -/

/-- C1: for every GET request whose URL is already present in the cache
bucket, the fetch handler responds with the cached response, performs no
network fetch, and leaves the bucket unchanged. -/
theorem fetch_cached_get_serves_cache_without_network
    (net : String → Response) (cache : Cache) (req : Request) (r : Response)
    (hm : req.method = "GET") (hc : cacheMatch cache req.url = some r) :
    handleFetch net cache req =
      { intercepted := true, response := some r, networkFetched := false,
        cache := cache } := by
  unfold handleFetch
  simp [hm, hc]

/-- Witness for C1 at a concrete cached GET request. -/
theorem fetch_cached_get_serves_cache_without_network_witness :
    handleFetch (fun _ => ⟨200, "from-network"⟩)
        [("/a", ⟨200, "from-cache"⟩)] ⟨"GET", "/a"⟩ =
      { intercepted := true, response := some ⟨200, "from-cache"⟩,
        networkFetched := false, cache := [("/a", ⟨200, "from-cache"⟩)] } :=
  fetch_cached_get_serves_cache_without_network
    (fun _ => ⟨200, "from-network"⟩) [("/a", ⟨200, "from-cache"⟩)]
    ⟨"GET", "/a"⟩ ⟨200, "from-cache"⟩ rfl rfl

/-- C2: for every GET request whose URL is not in the cache bucket, the
fetch handler performs a network fetch, responds with the network response,
stores that response in the bucket under the request URL, and a subsequent
identical GET is served from the cache without a network fetch. -/
theorem fetch_uncached_get_fetches_stores_and_reuses
    (net : String → Response) (cache : Cache) (req : Request)
    (hm : req.method = "GET") (hc : cacheMatch cache req.url = none) :
    handleFetch net cache req =
      { intercepted := true, response := some (net req.url),
        networkFetched := true,
        cache := cachePut cache req.url (net req.url) } ∧
    cacheMatch (handleFetch net cache req).cache req.url
      = some (net req.url) ∧
    handleFetch net (handleFetch net cache req).cache req =
      { intercepted := true, response := some (net req.url),
        networkFetched := false,
        cache := cachePut cache req.url (net req.url) } := by
  have h1 : handleFetch net cache req =
      { intercepted := true, response := some (net req.url),
        networkFetched := true,
        cache := cachePut cache req.url (net req.url) } := by
    unfold handleFetch
    simp [hm, hc]
  have h2 : cacheMatch (handleFetch net cache req).cache req.url
      = some (net req.url) := by
    rw [h1]
    simp [cacheMatch_cachePut]
  refine ⟨h1, h2, ?_⟩
  rw [h1]
  unfold handleFetch
  simp [hm, cacheMatch_cachePut]

/-- Witness for C2 at a concrete uncached GET request. -/
theorem fetch_uncached_get_fetches_stores_and_reuses_witness :
    handleFetch (fun _ => ⟨200, "fresh"⟩) [] ⟨"GET", "/b"⟩ =
      { intercepted := true, response := some ⟨200, "fresh"⟩,
        networkFetched := true, cache := [("/b", ⟨200, "fresh"⟩)] } ∧
    cacheMatch (handleFetch (fun _ => ⟨200, "fresh"⟩) [] ⟨"GET", "/b"⟩).cache
      "/b" = some ⟨200, "fresh"⟩ ∧
    handleFetch (fun _ => ⟨200, "fresh"⟩)
        (handleFetch (fun _ => ⟨200, "fresh"⟩) [] ⟨"GET", "/b"⟩).cache
        ⟨"GET", "/b"⟩ =
      { intercepted := true, response := some ⟨200, "fresh"⟩,
        networkFetched := false, cache := [("/b", ⟨200, "fresh"⟩)] } :=
  fetch_uncached_get_fetches_stores_and_reuses
    (fun _ => ⟨200, "fresh"⟩) [] ⟨"GET", "/b"⟩ rfl rfl

/-- C3: starting from the freshly created (empty) bucket, the install
handler leaves the bucket holding entries for exactly the URLs in `ASSETS`:
a URL has an entry afterwards iff it is in the asset list. -/
theorem install_populates_exactly_assets (net : String → Response)
    (u : String) :
    (cacheMatch (handleInstall net []) u).isSome = true ↔ u ∈ ASSETS := by
  show (cacheMatch
      (cachePut (cachePut [] "/" (net "/")) "/static/manifest.webmanifest"
        (net "/static/manifest.webmanifest")) u).isSome = true ↔ u ∈ ASSETS
  rw [cacheMatch_cachePut, cacheMatch_cachePut]
  by_cases h1 : u = "/static/manifest.webmanifest"
  · simp [h1, ASSETS]
  · by_cases h2 : u = "/"
    · simp [h1, h2, ASSETS]
    · simp [h1, h2, ASSETS, cacheMatch]

/-- C4: requests whose method is not GET are not intercepted: no
`respondWith` is issued, no network fetch is performed by the handler, and
the cache bucket is unchanged. -/
theorem fetch_non_get_passes_through (net : String → Response)
    (cache : Cache) (req : Request) (hm : req.method ≠ "GET") :
    handleFetch net cache req =
      { intercepted := false, response := none, networkFetched := false,
        cache := cache } := by
  unfold handleFetch
  simp [hm]

/-- Witness for C4 at a concrete POST request. -/
theorem fetch_non_get_passes_through_witness :
    handleFetch (fun _ => ⟨200, "n"⟩) [("/a", ⟨200, "x"⟩)] ⟨"POST", "/a"⟩ =
      { intercepted := false, response := none, networkFetched := false,
        cache := [("/a", ⟨200, "x"⟩)] } :=
  fetch_non_get_passes_through (fun _ => ⟨200, "n"⟩) [("/a", ⟨200, "x"⟩)]
    ⟨"POST", "/a"⟩ (by decide)

/-- C9: for every GET request not in the cache, the handler stores the
network response unconditionally — the theorem places no condition on the
response's status code — and the subsequent identical GET is served that
stored response from the cache without a network fetch. -/
theorem fetch_caches_network_response_regardless_of_status
    (net : String → Response) (cache : Cache) (req : Request)
    (hm : req.method = "GET") (hc : cacheMatch cache req.url = none) :
    (handleFetch net cache req).networkFetched = true ∧
    cacheMatch (handleFetch net cache req).cache req.url
      = some (net req.url) ∧
    (handleFetch net (handleFetch net cache req).cache req).response
      = some (net req.url) ∧
    (handleFetch net (handleFetch net cache req).cache req).networkFetched
      = false := by
  have h1 : handleFetch net cache req =
      { intercepted := true, response := some (net req.url),
        networkFetched := true,
        cache := cachePut cache req.url (net req.url) } := by
    unfold handleFetch
    simp [hm, hc]
  have h2 : cacheMatch (handleFetch net cache req).cache req.url
      = some (net req.url) := by
    rw [h1]
    simp [cacheMatch_cachePut]
  have h3 : handleFetch net (cachePut cache req.url (net req.url)) req =
      { intercepted := true, response := some (net req.url),
        networkFetched := false,
        cache := cachePut cache req.url (net req.url) } := by
    unfold handleFetch
    simp [hm, cacheMatch_cachePut]
  refine ⟨by rw [h1], h2, ?_, ?_⟩
  · rw [h1, h3]
  · rw [h1, h3]

/-- Witness for C9: a 404 error response is cached and then served from the
cache. -/
theorem fetch_caches_network_response_regardless_of_status_witness :
    (handleFetch (fun _ => ⟨404, "Not Found"⟩) [] ⟨"GET", "/missing"⟩
      ).networkFetched = true ∧
    cacheMatch
      (handleFetch (fun _ => ⟨404, "Not Found"⟩) [] ⟨"GET", "/missing"⟩).cache
      "/missing" = some ⟨404, "Not Found"⟩ ∧
    (handleFetch (fun _ => ⟨404, "Not Found"⟩)
      (handleFetch (fun _ => ⟨404, "Not Found"⟩) [] ⟨"GET", "/missing"⟩).cache
      ⟨"GET", "/missing"⟩).response = some ⟨404, "Not Found"⟩ ∧
    (handleFetch (fun _ => ⟨404, "Not Found"⟩)
      (handleFetch (fun _ => ⟨404, "Not Found"⟩) [] ⟨"GET", "/missing"⟩).cache
      ⟨"GET", "/missing"⟩).networkFetched = false :=
  fetch_caches_network_response_regardless_of_status
    (fun _ => ⟨404, "Not Found"⟩) [] ⟨"GET", "/missing"⟩ rfl rfl

/-- C5: a push event whose payload parses as the JSON object
`{"title":"T","body":"B","url":"/x"}` shows exactly one notification, with
title `"T"`, body `"B"` and stored click-target URL `"/x"`. -/
theorem push_parsed_payload_shows_one
    : handlePush (some ⟨some (.jstr "T"), some (.jstr "B"),
        some (.jstr "/x")⟩) =
      [{ title := .jstr "T", body := .jstr "B", url := .jstr "/x",
         icon := "/static/icons/icon-192.png",
         badge := "/static/icons/icon-192.png" }] := rfl

/-- C6: when the push payload fails to parse, the thrown error is swallowed
(`buildShown`/`handlePush` are total, the parse failure being the `none`
case) and exactly one notification is shown, with the default title
`"BailSaaS"`, empty body, and click-target `"/"`. -/
theorem push_unparsable_payload_shows_defaults
    : handlePush none =
      [{ title := .jstr "BailSaaS", body := .jstr "", url := .jstr "/",
         icon := "/static/icons/icon-192.png",
         badge := "/static/icons/icon-192.png" }] := rfl

/-- C10: defaults are applied per field by JavaScript falsiness on any
successfully parsed payload: a falsy `title`, `body` or `url` field (absent,
`""`, or any other falsy JSON value) is replaced by its default (`"BailSaaS"`,
`""`, `"/"` respectively), while a truthy field's value is kept. -/
theorem push_defaults_per_field_by_falsiness (t b u : Option JVal) :
    (jsFalsy t = true →
      (buildShown (some ⟨t, b, u⟩)).title = .jstr "BailSaaS") ∧
    (∀ w, t = some w → w.truthy = true →
      (buildShown (some ⟨t, b, u⟩)).title = w) ∧
    (jsFalsy b = true → (buildShown (some ⟨t, b, u⟩)).body = .jstr "") ∧
    (∀ w, b = some w → w.truthy = true →
      (buildShown (some ⟨t, b, u⟩)).body = w) ∧
    (jsFalsy u = true → (buildShown (some ⟨t, b, u⟩)).url = .jstr "/") ∧
    (∀ w, u = some w → w.truthy = true →
      (buildShown (some ⟨t, b, u⟩)).url = w) := by
  refine ⟨fun hf => ?_, fun w hw ht => ?_, fun hf => ?_, fun w hw ht => ?_,
    fun hf => ?_, fun w hw ht => ?_⟩ <;>
    simp only [buildShown, Option.getD, jsOr] <;>
    first
      | (cases t with
          | none => rfl
          | some w' =>
            simp only [jsFalsy, Bool.not_eq_true'] at hf
            simp [hf])
      | (cases b with
          | none => rfl
          | some w' =>
            simp only [jsFalsy, Bool.not_eq_true'] at hf
            simp [hf])
      | (cases u with
          | none => rfl
          | some w' =>
            simp only [jsFalsy, Bool.not_eq_true'] at hf
            simp [hf])
      | (subst hw; simp [ht])

/-- Witness for C10: a falsy-but-present `title` (the number `0`) falls back
to `"BailSaaS"`, a truthy `body` is kept, and an absent `url` falls back to
`"/"`. -/
theorem push_defaults_per_field_by_falsiness_witness :
    (buildShown (some ⟨some (.jnum 0), some (.jstr "B"), none⟩)).title
      = .jstr "BailSaaS" ∧
    (buildShown (some ⟨some (.jnum 0), some (.jstr "B"), none⟩)).body
      = .jstr "B" ∧
    (buildShown (some ⟨some (.jnum 0), some (.jstr "B"), none⟩)).url
      = .jstr "/" :=
  ⟨(push_defaults_per_field_by_falsiness (some (.jnum 0)) (some (.jstr "B"))
      none).1 (by decide),
   (push_defaults_per_field_by_falsiness (some (.jnum 0)) (some (.jstr "B"))
      none).2.2.2.1 (.jstr "B") rfl (by decide),
   (push_defaults_per_field_by_falsiness (some (.jnum 0)) (some (.jstr "B"))
      none).2.2.2.2.1 (by decide)⟩

/-- C7 counterexample: the handler requires `"focus" in c` as well as a URL
match, so a window client that shows the target URL but lacks a `focus`
member is skipped and a new window is opened — refuting the claim that
whenever some open window shows the target URL it is focused and no new
window is opened. -/
theorem click_counterexample_window_without_focus :
    (Client.mk "/x" false).url = clickTarget (some "/x") ∧
    (handleClick (some "/x") [Client.mk "/x" false]).action
      = ClickAction.openWindow "/x" := by
  constructor
  · rfl
  · rfl

/-- C7 (amended): if some open window client with a `focus` member shows the
target URL, the first such client is focused and no new window is opened;
if no open window client with a `focus` member shows the target URL, a new
window is opened at the target URL. -/
theorem click_focuses_match_or_opens_window (dataUrl : Option String)
    (list : List Client) :
    ((∃ c ∈ list, c.url = clickTarget dataUrl ∧ c.canFocus = true) →
      ∃ c ∈ list, c.url = clickTarget dataUrl ∧ c.canFocus = true ∧
        (handleClick dataUrl list).action = ClickAction.focusClient c) ∧
    ((∀ c ∈ list, ¬(c.url = clickTarget dataUrl ∧ c.canFocus = true)) →
      (handleClick dataUrl list).action
        = ClickAction.openWindow (clickTarget dataUrl)) := by
  constructor
  · intro hex
    have hsome : (list.find?
        (fun c => c.url == clickTarget dataUrl && c.canFocus)).isSome
        = true := by
      rw [List.find?_isSome]
      obtain ⟨c, hc, hurl, hfoc⟩ := hex
      exact ⟨c, hc, by simp [hurl, hfoc]⟩
    obtain ⟨c, hfind⟩ := Option.isSome_iff_exists.mp hsome
    have hmem : c ∈ list := List.mem_of_find?_eq_some hfind
    have hp := List.find?_some hfind
    simp only [Bool.and_eq_true, beq_iff_eq] at hp
    refine ⟨c, hmem, hp.1, hp.2, ?_⟩
    simp only [handleClick, hfind]
  · intro hall
    have hn : list.find? (fun c => c.url == clickTarget dataUrl && c.canFocus)
        = none := by
      rw [List.find?_eq_none]
      intro c hc
      have := hall c hc
      simp only [Bool.and_eq_true, beq_iff_eq]
      intro hcontra
      exact this hcontra
    simp only [handleClick, hn]

/-- Witness for the amended C7: a focusable client at the target URL is
focused; with no clients open, a new window is opened at the target. -/
theorem click_focuses_match_or_opens_window_witness :
    (handleClick (some "/x") [Client.mk "/x" true]).action
      = ClickAction.focusClient (Client.mk "/x" true) ∧
    (handleClick (some "/y") ([] : List Client)).action
      = ClickAction.openWindow "/y" := by
  constructor
  · obtain ⟨c, hc, _, _, ha⟩ :=
      (click_focuses_match_or_opens_window (some "/x")
        [Client.mk "/x" true]).1
        ⟨Client.mk "/x" true, List.mem_singleton.mpr rfl, rfl, rfl⟩
    rw [List.mem_singleton] at hc
    rw [ha, hc]
  · exact (click_focuses_match_or_opens_window (some "/y") []).2
      (by intro c hc; cases hc)

/-- C8 counterexample: the install handler's `addAll` refetches the asset
URLs and `put` replaces what is stored, so a request→response pair present
before an install event need not be present afterwards: here the pair
`("/", old)` is replaced by `("/", new)`. -/
theorem install_can_replace_existing_pair :
    cacheMatch [("/", Response.mk 200 "old")] "/"
      = some (Response.mk 200 "old") ∧
    cacheMatch
      (handleInstall (fun _ => Response.mk 200 "new")
        [("/", Response.mk 200 "old")]) "/"
      = some (Response.mk 200 "new") ∧
    cacheMatch
      (handleInstall (fun _ => Response.mk 200 "new")
        [("/", Response.mk 200 "old")]) "/"
      ≠ some (Response.mk 200 "old") := by
  refine ⟨rfl, rfl, ?_⟩
  intro h
  simp only [handleInstall, ASSETS, List.foldl] at h
  rw [cacheMatch_cachePut, cacheMatch_cachePut] at h
  simp at h

/-- C8 (amended): no handler removes a URL from the cache bucket — every URL
with an entry before any event still has an entry afterwards — and the
activate, fetch, push and notificationclick handlers preserve every existing
request→response pair unchanged; only the install handler may overwrite the
response stored for an asset URL. -/
theorem handlers_never_drop_cached_urls (net : String → Response)
    (c : Cache) (req : Request) (u : String) (r : Response)
    (h : cacheMatch c u = some r) :
    (cacheMatch (handleInstall net c) u).isSome = true ∧
    handleActivate c = c ∧
    cacheMatch (handleFetch net c req).cache u = some r ∧
    handlePushCache c = c ∧
    handleClickCache c = c := by
  refine ⟨?_, rfl, ?_, rfl, rfl⟩
  · exact cacheMatch_isSome_foldl net ASSETS c u (by rw [h]; rfl)
  · unfold handleFetch
    by_cases hm : req.method = "GET"
    · simp only [hm, bne_self_eq_false, Bool.false_eq_true, if_false]
      cases hc : cacheMatch c req.url with
      | some cached => exact h
      | none =>
        simp only
        rw [cacheMatch_cachePut]
        split
        · rename_i huv
          rw [huv, hc] at h
          exact absurd h (by simp)
        · exact h
    · simp [hm, h]

/-- Witness for the amended C8 at a concrete cache, request and network. -/
theorem handlers_never_drop_cached_urls_witness :
    (cacheMatch
      (handleInstall (fun _ => Response.mk 200 "n")
        [("/old", Response.mk 200 "o")]) "/old").isSome = true ∧
    handleActivate [("/old", Response.mk 200 "o")]
      = [("/old", Response.mk 200 "o")] ∧
    cacheMatch
      (handleFetch (fun _ => Response.mk 200 "n")
        [("/old", Response.mk 200 "o")] ⟨"GET", "/new"⟩).cache "/old"
      = some (Response.mk 200 "o") ∧
    handlePushCache [("/old", Response.mk 200 "o")]
      = [("/old", Response.mk 200 "o")] ∧
    handleClickCache [("/old", Response.mk 200 "o")]
      = [("/old", Response.mk 200 "o")] :=
  handlers_never_drop_cached_urls (fun _ => Response.mk 200 "n")
    [("/old", Response.mk 200 "o")] ⟨"GET", "/new"⟩ "/old"
    (Response.mk 200 "o") rfl

end BondKeeper
